import Mathlib

/-!
Verification of the client-side real-time synchronization engine of the
litmus dashboard (frontend/src/app/scan/page.tsx and frontend/src/lib/api.ts),
against its natural-language specification.

The stateful TypeScript code is shallowly embedded: strings are `List Char`,
React state updates become pure state-passing functions, the SSE / fetch
callbacks become step functions on explicit state types, and side effects
(refetches, query invalidations, dispatched mutations) are returned as an
explicit effect record.
-/

namespace Litmus

/-! ## Frame decoder (startStreamingScan, page.tsx lines 260-268)

The scan-progress stream loop keeps a carry-over `buffer`, and on each chunk
runs
  `buffer += chunk; const lines = buffer.split("\n"); buffer = lines.pop() || "";`
and then processes the complete `lines` in order.  JavaScript
`s.split("\n")` on a string is `splitNL` on the string's character list. -/

/-- Model of `String.prototype.split("\n")` on a list of characters: the list of
(newline-free) segments between newline characters; always non-empty. -/
def splitNL : List Char → List (List Char)
  | [] => [[]]
  | c :: cs =>
    if c = '\n' then [] :: splitNL cs
    else (splitNL cs).modifyHead (fun l => c :: l)

/-- One iteration of the read loop on a chunk: prepend the carry-over buffer,
split on newlines, return the complete lines and the new carry-over
(`lines.pop() || ""`, i.e. the last segment). -/
def feedChunk (buf chunk : List Char) : List (List Char) × List Char :=
  let ls := splitNL (buf ++ chunk)
  (ls.dropLast, ls.getLastD [])

/-- Run the read loop over a whole sequence of chunks, collecting the complete
lines emitted (in order) and the final carry-over buffer. -/
def feedAll (buf : List Char) : List (List Char) → List (List Char) × List Char
  | [] => ([], buf)
  | ch :: rest =>
    let r1 := feedChunk buf ch
    let r2 := feedAll r1.2 rest
    (r1.1 ++ r2.1, r2.2)

/-- The body of the `while` loop applies a line handler `g` to each complete
line, in order; the final carry-over buffer is never passed to `g`
(the loop exits on `done` without touching `buffer`). -/
def runLoop {σ : Type} (g : σ → List Char → σ) (s : σ) (chunks : List (List Char)) : σ :=
  ((feedAll [] chunks).1).foldl g s

theorem splitNL_length_pos (s : List Char) : 0 < (splitNL s).length := by
  induction s with
  | nil => simp [splitNL]
  | cons c cs ih =>
    simp only [splitNL]
    split
    · simp
    · simpa using ih

theorem splitNL_ne_nil (s : List Char) : splitNL s ≠ [] := by
  have h := splitNL_length_pos s
  intro hc
  rw [hc] at h
  simp at h

theorem splitNL_nil : splitNL [] = [[]] := rfl

theorem splitNL_cons_nl (cs : List Char) : splitNL ('\n' :: cs) = [] :: splitNL cs := by
  simp [splitNL]

theorem splitNL_cons_ne (c : Char) (cs : List Char) (h : c ≠ '\n') :
    splitNL (c :: cs) = (splitNL cs).modifyHead (fun l => c :: l) := by
  simp [splitNL, h]

/-- Helper merge of two split results: the last segment of the first run
continues into the first segment of the second run. -/
def glue : List (List Char) → List (List Char) → List (List Char)
  | [], ys => ys
  | [x], [] => [x]
  | [x], y :: ys => (x ++ y) :: ys
  | x :: x2 :: xs, ys => x :: glue (x2 :: xs) ys

theorem glue_ne_nil (S T : List (List Char)) (h : S ≠ []) : glue S T ≠ [] := by
  match S, T with
  | [x], [] => simp [glue]
  | [x], y :: ys => simp [glue]
  | x :: x2 :: xs, ys => simp [glue]

theorem glue_modifyHead (c : Char) (S T : List (List Char)) (h : S ≠ []) :
    (glue S T).modifyHead (fun l => c :: l) = glue (S.modifyHead (fun l => c :: l)) T := by
  match S, T with
  | [x], [] => simp [glue]
  | [x], y :: ys => simp [glue]
  | x :: x2 :: xs, ys => simp [glue]

theorem splitNL_append (a b : List Char) :
    splitNL (a ++ b) = glue (splitNL a) (splitNL b) := by
  induction a with
  | nil =>
    obtain ⟨y, ys, hy⟩ := List.exists_cons_of_ne_nil (splitNL_ne_nil b)
    simp [splitNL_nil, hy, glue]
  | cons c a' ih =>
    by_cases hc : c = '\n'
    · subst hc
      rw [List.cons_append, splitNL_cons_nl, splitNL_cons_nl, ih]
      obtain ⟨l, ls, hl⟩ := List.exists_cons_of_ne_nil (splitNL_ne_nil a')
      rw [hl]
      rfl
    · rw [List.cons_append, splitNL_cons_ne _ _ hc, splitNL_cons_ne _ _ hc, ih,
        glue_modifyHead c _ _ (splitNL_ne_nil a')]

theorem glue_decomp (S T : List (List Char)) (h : S ≠ []) :
    glue S T = S.dropLast ++ glue [S.getLastD []] T := by
  induction S with
  | nil => exact absurd rfl h
  | cons x S' ih =>
    cases S' with
    | nil => simp
    | cons x2 xs =>
      have h2 : x2 :: xs ≠ [] := by simp
      calc glue (x :: x2 :: xs) T = x :: glue (x2 :: xs) T := rfl
        _ = x :: ((x2 :: xs).dropLast ++ glue [(x2 :: xs).getLastD []] T) := by rw [ih h2]
        _ = (x :: x2 :: xs).dropLast ++ glue [(x :: x2 :: xs).getLastD []] T := by
            simp [List.getLastD_cons]

theorem mem_splitNL_no_newline (s : List Char) :
    ∀ l ∈ splitNL s, '\n' ∉ l := by
  induction s with
  | nil =>
    intro l hl
    rw [splitNL_nil, List.mem_singleton] at hl
    subst hl
    simp
  | cons c cs ih =>
    intro l hl
    by_cases hc : c = '\n'
    · subst hc
      rw [splitNL_cons_nl, List.mem_cons] at hl
      rcases hl with hl | hl
      · subst hl
        simp
      · exact ih l hl
    · rw [splitNL_cons_ne _ _ hc] at hl
      obtain ⟨h0, t, ht⟩ := List.exists_cons_of_ne_nil (splitNL_ne_nil cs)
      rw [ht] at hl
      simp only [List.modifyHead] at hl
      rcases List.mem_cons.mp hl with hl | hl
      · subst hl
        intro hmem
        rcases List.mem_cons.mp hmem with h | h
        · exact hc h.symm
        · exact ih h0 (by rw [ht]; exact List.mem_cons_self _ _) h
      · exact ih l (by rw [ht]; exact List.mem_cons_of_mem _ hl)

theorem splitNL_eq_singleton (s : List Char) (h : ∀ c ∈ s, c ≠ '\n') :
    splitNL s = [s] := by
  induction s with
  | nil => rfl
  | cons c cs ih =>
    have hc : c ≠ '\n' := h c (List.mem_cons_self _ _)
    have ih' : splitNL cs = [cs] := ih (fun x hx => h x (List.mem_cons_of_mem _ hx))
    simp [splitNL, hc, ih']

theorem getLastD_ne_nil {α : Type} (l : List α) (d d' : α) (h : l ≠ []) :
    l.getLastD d = l.getLastD d' := by
  cases l with
  | nil => exact absurd rfl h
  | cons y ys => rw [List.getLastD_cons, List.getLastD_cons]

theorem getLastD_append_ne_nil {α : Type} (l₁ l₂ : List α) (d : α) (h : l₂ ≠ []) :
    (l₁ ++ l₂).getLastD d = l₂.getLastD d := by
  induction l₁ generalizing d with
  | nil => rfl
  | cons x l₁ ih =>
    rw [List.cons_append, List.getLastD_cons, ih x]
    exact getLastD_ne_nil l₂ x d h

theorem getLastD_mem_of_ne_nil {α : Type} (l : List α) (d : α) (h : l ≠ []) :
    l.getLastD d ∈ l := by
  cases l with
  | nil => exact absurd rfl h
  | cons y ys =>
    rw [List.getLastD_cons]
    exact List.getLastD_mem_cons ys y

/-- Characterization of the read loop: starting from a newline-free carry-over
buffer, feeding any chunk list emits exactly the complete lines of the total
stream so far, and carries the final (possibly incomplete) segment. -/
theorem feedAll_spec (chunks : List (List Char)) (buf : List Char)
    (hbuf : ∀ c ∈ buf, c ≠ '\n') :
    (feedAll buf chunks).1 = (splitNL (buf ++ chunks.flatten)).dropLast
  ∧ (feedAll buf chunks).2 = (splitNL (buf ++ chunks.flatten)).getLastD [] := by
  induction chunks generalizing buf with
  | nil =>
    rw [List.flatten_nil, List.append_nil, splitNL_eq_singleton buf hbuf]
    exact ⟨rfl, rfl⟩
  | cons ch rest ih =>
    have hS := splitNL_ne_nil (buf ++ ch)
    set S := splitNL (buf ++ ch) with hSdef
    set b1 := S.getLastD [] with hb1
    have hb1not : '\n' ∉ b1 :=
      mem_splitNL_no_newline (buf ++ ch) b1 (getLastD_mem_of_ne_nil S [] hS)
    have hb1nl : ∀ c ∈ b1, c ≠ '\n' := fun c hc he => hb1not (he ▸ hc)
    have ihb := ih b1 hb1nl
    have hT := splitNL_ne_nil rest.flatten
    set T := splitNL rest.flatten with hTdef
    have hsplit : splitNL (buf ++ (ch :: rest).flatten) = glue S T := by
      rw [List.flatten_cons, ← List.append_assoc, splitNL_append]
    have hb1T : splitNL (b1 ++ rest.flatten) = glue [b1] T := by
      rw [splitNL_append, splitNL_eq_singleton b1 hb1nl]
    have hglue : glue S T = S.dropLast ++ glue [b1] T := glue_decomp S T hS
    have hgnn : glue [b1] T ≠ [] := glue_ne_nil [b1] T (by simp)
    constructor
    · show S.dropLast ++ (feedAll b1 rest).1 = (splitNL (buf ++ (ch :: rest).flatten)).dropLast
      rw [ihb.1, hsplit, hglue, hb1T,
        List.dropLast_append_of_ne_nil _ hgnn]
    · show (feedAll b1 rest).2 = (splitNL (buf ++ (ch :: rest).flatten)).getLastD []
      rw [ihb.2, hsplit, hglue, hb1T, getLastD_append_ne_nil _ _ _ hgnn]

/-- C1: For every byte/text sequence and every way of partitioning it into
chunks, feeding the chunks in order through the scan-stream frame decoder
(the buffer-prepend, split-on-newline, carry-last-fragment loop in
`startStreamingScan`) yields the identical ordered sequence of complete lines
— both partitions emit exactly the complete lines of the underlying sequence,
including when a single JSON payload is split across many chunks. -/
theorem chunk_boundary_invariance (cs₁ cs₂ : List (List Char))
    (h : cs₁.flatten = cs₂.flatten) :
    (feedAll [] cs₁).1 = (feedAll [] cs₂).1
  ∧ (feedAll [] cs₁).1 = (splitNL cs₁.flatten).dropLast := by
  have h1 := (feedAll_spec cs₁ [] (by simp)).1
  have h2 := (feedAll_spec cs₂ [] (by simp)).1
  rw [List.nil_append] at h1 h2
  exact ⟨by rw [h1, h2, h], h1⟩

theorem chunk_boundary_invariance_witness :
    (feedAll [] [['a', '\n', 'b', 'x']]).1
      = (feedAll [] [['a'], ['\n'], ['b'], ['x']]).1 :=
  (chunk_boundary_invariance [['a', '\n', 'b', 'x']] [['a'], ['\n'], ['b'], ['x']]
    (by rfl)).1

/-- C10: if the stream ends while the carry-over buffer holds a final fragment
not terminated by a newline, that fragment is never passed to the
line-processing body: appending such a trailing fragment to the stream leaves
both the emitted line sequence and the result of any line-processing fold
unchanged. -/
theorem trailing_fragment_discarded {σ : Type} (g : σ → List Char → σ) (s : σ)
    (cs : List (List Char)) (f : List Char) (hf : ∀ c ∈ f, c ≠ '\n') :
    runLoop g s (cs ++ [f]) = runLoop g s cs
  ∧ (feedAll [] (cs ++ [f])).1 = (feedAll [] cs).1 := by
  have key : (feedAll [] (cs ++ [f])).1 = (feedAll [] cs).1 := by
    have h1 := (feedAll_spec (cs ++ [f]) [] (by simp)).1
    have h2 := (feedAll_spec cs [] (by simp)).1
    rw [List.nil_append] at h1 h2
    rw [h1, h2]
    obtain ⟨y, ys, hy⟩ := List.exists_cons_of_ne_nil (splitNL_ne_nil f)
    have hsplit : splitNL ((cs ++ [f]).flatten) = glue (splitNL cs.flatten) (splitNL f) := by
      rw [List.flatten_append]
      simp only [List.flatten_cons, List.flatten_nil, List.append_nil]
      exact splitNL_append _ _
    rw [hsplit, splitNL_eq_singleton f hf,
      glue_decomp _ _ (splitNL_ne_nil cs.flatten)]
    have : glue [(splitNL cs.flatten).getLastD []] [f]
        = [(splitNL cs.flatten).getLastD [] ++ f] := rfl
    rw [this, List.dropLast_concat]
  exact ⟨by unfold runLoop; rw [key], key⟩

theorem trailing_fragment_discarded_witness :
    runLoop (fun (n : Nat) _ => n + 1) 0 [['a', '\n'], ['x', 'y']]
      = runLoop (fun (n : Nat) _ => n + 1) 0 [['a', '\n']] :=
  (trailing_fragment_discarded (fun n _ => n + 1) 0 [['a', '\n']] ['x', 'y']
    (by decide)).1

/-! ## Data model (page.tsx interfaces and lib/api.ts usage)

JavaScript optional / possibly-absent fields become `Option`; JS numbers used
as counters become `Int` where the code can drive them below zero (queue
counters) and `Nat` where they are only ever sums of fetched counts. -/

/-- The `current` object built by the `processing` branch of
`eventSource.onmessage` (page.tsx lines 159-164). -/
structure CurrentItem where
  item_id : Int
  paper_id : Int
  paper_title : String
  started_at : String
deriving Repr, DecidableEq

/-- Queue status record `QueueStatus` as consumed by page.tsx (fields read at lines 155-165,
620-655): the queue counters plus the optional current item. -/
structure QueueStatus where
  pending : Int
  processing : Int
  completed : Int
  failed : Int
  current : Option CurrentItem
deriving Repr, DecidableEq

/-- Recent-item record `QueueItem` as consumed by the recent-items list (page.tsx lines 682-737). -/
structure QueueItem where
  id : Int
  paper_id : Int
  paper_title : Option String
  status : String
  result_grade : Option String
  result_flagged : Bool
  error_message : Option String
deriving Repr, DecidableEq

/-- Result-log entry `ScanResult` (page.tsx lines 27-31): one entry of the result log. -/
structure ScanResult where
  success : Bool
  message : String
  count : Option Int
deriving Repr, DecidableEq

/-- Status field `SourceProgress.status` (page.tsx line 34). -/
inductive SourceStatus
  | pending
  | scanning
  | complete
  | error
deriving Repr, DecidableEq

/-- Per-source progress `SourceProgress` (page.tsx lines 33-38). -/
structure SourceProgress where
  status : SourceStatus
  papersFound : Nat
  sampleTitles : List String
  error : Option String
deriving Repr, DecidableEq

/-- The four scan sources (keys of `ScanProgress.sources`, page.tsx
lines 42-47). -/
inductive SourceId
  | arxiv
  | biorxiv
  | medrxiv
  | pubmed
deriving Repr, DecidableEq

/-- The map `ScanProgress.sources` (page.tsx lines 42-47), a fixed record of the four
sources. -/
structure ScanSources where
  arxiv : SourceProgress
  biorxiv : SourceProgress
  medrxiv : SourceProgress
  pubmed : SourceProgress
deriving Repr, DecidableEq

/-- Scan state `ScanProgress` (page.tsx lines 40-50). -/
structure ScanProgress where
  isScanning : Bool
  sources : ScanSources
  totalPapers : Nat
  currentMessage : String
deriving Repr, DecidableEq

/-- Constant `initialSourceProgress` (page.tsx lines 69-73). -/
def initialSourceProgress : SourceProgress :=
  { status := .pending, papersFound := 0, sampleTitles := [], error := none }

/-- Constant `initialProgress` (page.tsx lines 75-85). -/
def initialProgress : ScanProgress :=
  { isScanning := false
    sources :=
      { arxiv := initialSourceProgress, biorxiv := initialSourceProgress
        medrxiv := initialSourceProgress, pubmed := initialSourceProgress }
    totalPapers := 0
    currentMessage := "" }

/-- Lookup `prev.sources[source]`. -/
def getSource (s : ScanSources) : SourceId → SourceProgress
  | .arxiv => s.arxiv
  | .biorxiv => s.biorxiv
  | .medrxiv => s.medrxiv
  | .pubmed => s.pubmed

/-- Update `{ ...prev.sources, [source]: v }`. -/
def setSource (s : ScanSources) : SourceId → SourceProgress → ScanSources
  | .arxiv, v => { s with arxiv := v }
  | .biorxiv, v => { s with biorxiv := v }
  | .medrxiv, v => { s with medrxiv := v }
  | .pubmed, v => { s with pubmed := v }

/-- Sum `Object.values(sources).reduce((sum, s) => sum + s.papersFound, 0)`
(page.tsx lines 306-307). -/
def sumFound (s : ScanSources) : Nat :=
  s.arxiv.papersFound + s.biorxiv.papersFound + s.medrxiv.papersFound
    + s.pubmed.papersFound

/-- JS truthiness of an optional string (`if (x)`): present and non-empty. -/
def jsStrTruthy : Option String → Bool
  | some s => !s.isEmpty
  | none => false

/-- JS `x || d` for an optional string: `d` when absent or empty. -/
def jsOrStr : Option String → String → String
  | some s, d => if s.isEmpty then d else s
  | none, d => d

/-- JS template interpolation of a possibly-`undefined` value
(`` `${x}` `` prints the literal text `undefined` when absent). -/
def jsShow : Option String → String
  | some s => s
  | none => "undefined"

/-- JS `x?.substring(0, 50)` interpolated into a template. -/
def jsSub50 : Option String → String
  | some s => s.take 50
  | none => "undefined"

/-! ## Queue event channel handler (eventSource.onmessage, page.tsx 136-192)

The handler branches on `data.type`; each recognized type reads its own
payload fields, so the parsed event is a tagged union.  Any other `type`
value matches no branch and leaves everything unchanged (`other`). -/

/-- Parsed queue-channel event, by `data.type` (page.tsx lines 140-169). -/
inductive QueueEvent
  | status (payload : QueueStatus)
  | heartbeat
  | queue_updated
  | queue_cleared
  | item_cancelled
  | processing (item_id : Int) (paper_id : Int) (paper_title : Option String)
  | completed (paper_title : Option String) (risk_grade : Option String)
  | failed (paper_title : Option String) (error : Option String)
  | other
deriving Repr, DecidableEq

/-- All client-local view state touched by the scan page: queue status,
recent items, the result log, and the scan progress block. -/
structure ClientState where
  queueStatus : Option QueueStatus
  recentItems : List QueueItem
  results : List ScanResult
  scanProgress : ScanProgress
deriving Repr, DecidableEq

/-- Side effects requested by a handler: reconciliation re-fetches, query
invalidations, and any further mutation requests it dispatches. -/
structure QueueFx where
  refetchStatus : Bool
  refetchItems : Bool
  invalidated : List String
  dispatched : List String
deriving Repr, DecidableEq

/-- No side effects. -/
def noFx : QueueFx :=
  { refetchStatus := false, refetchItems := false, invalidated := [], dispatched := [] }

/-- Re-fetch both queue snapshots (`refetchStatus(); refetchItems();`). -/
def refetchBothFx : QueueFx :=
  { refetchStatus := true, refetchItems := true, invalidated := [], dispatched := [] }

/-- The `eventSource.onmessage` handler (page.tsx lines 136-192) as a pure
step: given the current client state, a parsed event and the current wall
clock string (`new Date().toISOString()`), it returns the new client state
and the effects it issues. -/
def onQueueMessage (st : ClientState) (e : QueueEvent) (now : String) :
    ClientState × QueueFx :=
  match e with
  | .status payload => ({ st with queueStatus := some payload }, noFx)
  | .heartbeat => (st, noFx)
  | .queue_updated => (st, refetchBothFx)
  | .queue_cleared => (st, refetchBothFx)
  | .item_cancelled => (st, refetchBothFx)
  | .processing item_id paper_id paper_title =>
    ({ st with
        queueStatus :=
          match st.queueStatus with
          | some prev =>
            some { prev with
                    processing := 1
                    pending := max 0 (prev.pending - 1)
                    current := some
                      { item_id := item_id, paper_id := paper_id
                        paper_title := jsOrStr paper_title "Unknown"
                        started_at := now } }
          | none => none },
     noFx)
  | .completed paper_title risk_grade =>
    ({ st with
        results := st.results ++
          [{ success := true
             message := "Assessed: " ++ jsSub50 paper_title ++ "... (Grade: "
               ++ jsShow risk_grade ++ ")"
             count := none }] },
     { refetchStatus := true, refetchItems := true
       invalidated := ["assessments", "papers", "flagged"], dispatched := [] })
  | .failed paper_title err =>
    ({ st with
        results := st.results ++
          [{ success := false
             message := "Failed: " ++ jsSub50 paper_title ++ "... - " ++ jsShow err
             count := none }] },
     { refetchStatus := true, refetchItems := true
       invalidated := ["assessments", "papers", "flagged"], dispatched := [] })
  | .other => (st, noFx)

/-- Fold the handler's state part over a sequence of (event, clock) pairs. -/
def runQueue (st : ClientState) (evs : List (QueueEvent × String)) : ClientState :=
  evs.foldl (fun s p => (onQueueMessage s p.1 p.2).1) st

/-- A legal event carries only non-negative counters (only `status` payloads
carry counters on this channel). -/
def legalEvent : QueueEvent → Prop
  | .status q => 0 ≤ q.pending ∧ 0 ≤ q.processing ∧ 0 ≤ q.completed ∧ 0 ≤ q.failed
  | _ => True

instance : DecidablePred legalEvent := by
  intro e
  cases e <;> simp only [legalEvent] <;> infer_instance

/-- The pending counter of the (possibly absent) queue status is non-negative. -/
def pendingOk : Option QueueStatus → Prop
  | some q => 0 ≤ q.pending
  | none => True

instance : DecidablePred pendingOk := by
  intro q
  cases q <;> simp only [pendingOk] <;> infer_instance

/-- C2: a `processing` queue-channel event applied to a non-null queue status
sets `current` to the item referenced by the event, sets `pending` to the
previous `pending` minus one floored at zero, and sets `processing` to
exactly 1. -/
theorem processing_event_updates (st : ClientState) (prev : QueueStatus)
    (hprev : st.queueStatus = some prev) (iid pid : Int) (title : Option String)
    (now : String) :
    ∃ q, ((onQueueMessage st (.processing iid pid title) now).1).queueStatus = some q
      ∧ q.current = some
          { item_id := iid, paper_id := pid
            paper_title := jsOrStr title "Unknown", started_at := now }
      ∧ q.pending = max 0 (prev.pending - 1)
      ∧ q.processing = 1 := by
  refine ⟨{ prev with
      processing := 1
      pending := max 0 (prev.pending - 1)
      current := some
        { item_id := iid, paper_id := pid
          paper_title := jsOrStr title "Unknown", started_at := now } },
    ?_, rfl, rfl, rfl⟩
  simp [onQueueMessage, hprev]

theorem processing_event_updates_witness :
    ∃ q, ((onQueueMessage
        { queueStatus := some
            { pending := 3, processing := 0, completed := 2, failed := 0, current := none }
          recentItems := [], results := [], scanProgress := initialProgress }
        (.processing 7 12 (some "Paper")) "t0").1).queueStatus = some q
      ∧ q.current = some
          { item_id := 7, paper_id := 12, paper_title := jsOrStr (some "Paper") "Unknown"
            started_at := "t0" }
      ∧ q.pending = max 0 ((3 : Int) - 1)
      ∧ q.processing = 1 :=
  processing_event_updates
    { queueStatus := some
        { pending := 3, processing := 0, completed := 2, failed := 0, current := none }
      recentItems := [], results := [], scanProgress := initialProgress }
    { pending := 3, processing := 0, completed := 2, failed := 0, current := none }
    rfl 7 12 (some "Paper") "t0"

theorem pendingOk_step (st : ClientState) (e : QueueEvent) (now : String)
    (hok : pendingOk st.queueStatus) (hleg : legalEvent e) :
    pendingOk ((onQueueMessage st e now).1).queueStatus := by
  cases e with
  | status payload => exact hleg.1
  | processing iid pid title =>
    cases hq : st.queueStatus with
    | none => simp [onQueueMessage, hq, pendingOk]
    | some prev =>
      simp only [onQueueMessage, hq, pendingOk]
      exact le_max_left 0 _
  | heartbeat => exact hok
  | queue_updated => exact hok
  | queue_cleared => exact hok
  | item_cancelled => exact hok
  | completed t g => exact hok
  | failed t er => exact hok
  | other => exact hok

/-- C3: for every sequence of queue-channel events whose carried payloads have
non-negative counters, applied from an initial state whose pending counter is
non-negative, the pending counter never becomes negative after any prefix of
the sequence. -/
theorem pending_never_negative (st : ClientState) (evs : List (QueueEvent × String))
    (hok : pendingOk st.queueStatus) (hleg : ∀ p ∈ evs, legalEvent p.1) (n : Nat) :
    pendingOk ((runQueue st (evs.take n)).queueStatus) := by
  induction evs generalizing st n with
  | nil =>
    rw [List.take_nil]
    exact hok
  | cons p rest ih =>
    cases n with
    | zero =>
      rw [List.take_zero]
      exact hok
    | succ n =>
      rw [List.take_succ_cons]
      show pendingOk ((runQueue ((onQueueMessage st p.1 p.2).1) (rest.take n)).queueStatus)
      exact ih _
        (pendingOk_step st p.1 p.2 hok (hleg p (List.mem_cons_self _ _)))
        (fun q hq => hleg q (List.mem_cons_of_mem _ hq)) n

theorem pending_never_negative_witness :
    pendingOk ((runQueue
      { queueStatus := some
          { pending := 1, processing := 0, completed := 0, failed := 0, current := none }
        recentItems := [], results := [], scanProgress := initialProgress }
      (([((.processing 1 2 none : QueueEvent), "t0"),
         ((.processing 3 4 none : QueueEvent), "t1")]).take 2)).queueStatus) :=
  pending_never_negative
    { queueStatus := some
        { pending := 1, processing := 0, completed := 0, failed := 0, current := none }
      recentItems := [], results := [], scanProgress := initialProgress }
    [((.processing 1 2 none : QueueEvent), "t0"),
     ((.processing 3 4 none : QueueEvent), "t1")]
    (by decide) (by decide) 2

/-- C4: applying a `status` snapshot event twice in succession to any client
state yields the same state as applying it once, and applying a snapshot event
to a state already reflecting its payload is a no-op (likewise the `heartbeat`
snapshot event, which changes nothing at all). -/
theorem status_snapshot_idempotent (st : ClientState) (p : QueueStatus)
    (now now2 : String) :
    (onQueueMessage (onQueueMessage st (.status p) now).1 (.status p) now2).1
      = (onQueueMessage st (.status p) now).1
  ∧ (onQueueMessage { st with queueStatus := some p } (.status p) now).1
      = { st with queueStatus := some p }
  ∧ (onQueueMessage st .heartbeat now).1 = st := by
  exact ⟨rfl, rfl, rfl⟩

/-- C7: the `queue_updated`, `queue_cleared` and `item_cancelled` events
mutate no local state at all — queue status, recent items, result log and scan
progress are left unchanged — and only issue the two reconciliation re-fetches
(no invalidations, no dispatched mutations). -/
theorem invalidation_events_pure (st : ClientState) (now : String) :
    onQueueMessage st .queue_updated now = (st, refetchBothFx)
  ∧ onQueueMessage st .queue_cleared now = (st, refetchBothFx)
  ∧ onQueueMessage st .item_cancelled now = (st, refetchBothFx)
  ∧ refetchBothFx.invalidated = [] ∧ refetchBothFx.dispatched = [] := by
  exact ⟨rfl, rfl, rfl, rfl, rfl⟩

/-! ## Scan progress reducer (startStreamingScan, page.tsx 270-332)

Each complete line is either an `event: <name>` marker (skipped — the
extracted name is never used), a `data: <json>` line whose payload drives the
`setScanProgress` reducer, or something else (skipped).  A data line that
fails to parse is dropped by the `catch`.  The branches on a data line test
the *raw line text* for the substrings `source_start` / `source_complete`
(`line.includes(...)`), so those two flags travel with the parsed payload. -/

/-- Fields of a parsed `data:` payload read by the reducer
(page.tsx lines 282-324). -/
structure ScanData where
  message : Option String
  source : Option SourceId
  papers_fetched : Option Nat
  sample_titles : Option (List String)
  error : Option String
  total_papers : Option Nat
deriving Repr, DecidableEq

/-- A complete line of the scan stream, as the loop body classifies it. -/
inductive ScanLine
  | eventLine
  | dataLine (hasStart hasComplete : Bool) (parsed : Option ScanData)
  | otherLine
deriving Repr, DecidableEq

/-- The `setScanProgress` reducer for one parsed data payload
(page.tsx lines 279-327).  `hasStart` / `hasComplete` are
`line.includes("source_start")` / `line.includes("source_complete")`. -/
def applyData (prev : ScanProgress) (hasStart hasComplete : Bool)
    (d : ScanData) : ScanProgress :=
  let p1 := if jsStrTruthy d.message
    then { prev with currentMessage := d.message.getD "" }
    else prev
  let p2 := match d.source with
    | none => p1
    | some src =>
      if hasStart then
        let s1 := setSource prev.sources src ({ getSource prev.sources src with status := .scanning })
        { p1 with sources := s1 }
      else if hasComplete || d.papers_fetched.isSome then
        let newSources := setSource prev.sources src ({ status := .complete, papersFound := d.papers_fetched.getD 0, sampleTitles := d.sample_titles.getD [], error := none })
        { p1 with sources := newSources, totalPapers := sumFound newSources }
      else if jsStrTruthy d.error then
        let s3 := setSource prev.sources src ({ getSource prev.sources src with status := .error, error := d.error })
        { p1 with sources := s3 }
      else p1
  match d.total_papers with
  | none => p2
  | some tp =>
    { p2 with
        totalPapers := tp
        isScanning := false
        currentMessage := jsOrStr d.message "Scan complete!" }

/-- The loop body for one complete line (page.tsx lines 270-331): `event:`
marker lines and unparseable or unrecognized lines change nothing. -/
def applyScanLine (prev : ScanProgress) : ScanLine → ScanProgress
  | .dataLine hasStart hasComplete (some d) => applyData prev hasStart hasComplete d
  | .dataLine _ _ none => prev
  | .eventLine => prev
  | .otherLine => prev

/-- The scan progress state set at the start of `startStreamingScan`
(page.tsx lines 245-249). -/
def scanStart : ScanProgress :=
  { initialProgress with isScanning := true, currentMessage := "Connecting..." }

/-- A `source_complete` data line for source `src` reporting `n` papers. -/
def completeLine (src : SourceId) (n : Nat) : ScanLine :=
  .dataLine false true (some
    { message := none, source := some src, papers_fetched := some n
      sample_titles := some [], error := none, total_papers := none })

/-- An error data line for source `src`. -/
def errorLine (src : SourceId) (msg : String) : ScanLine :=
  .dataLine false false (some
    { message := none, source := some src, papers_fetched := none
      sample_titles := none, error := some msg, total_papers := none })

/-- The terminal sentinel data line carrying `total_papers`. -/
def sentinelLine (tp : Nat) (msg : Option String) : ScanLine :=
  .dataLine false false (some
    { message := msg, source := none, papers_fetched := none
      sample_titles := none, error := none, total_papers := some tp })

theorem applyData_isScanning (p : ScanProgress) (hs hc : Bool) (d : ScanData)
    (h : d.total_papers = none) :
    (applyData p hs hc d).isScanning = p.isScanning := by
  obtain ⟨msg, src, pf, ti, er, tp⟩ := d
  simp only at h
  subst h
  dsimp only [applyData]
  cases src <;> split_ifs <;> rfl

/-- C5: Scenario A — four sources; three emit completion lines with found
counts 10, 5 and 8, one emits an error line; after all four settle the total
found is 23 and `isScanning` is still true.  In general no data payload
without the `total_papers` sentinel field changes `isScanning`, and applying
the sentinel line to the settled state clears it. -/
theorem scenario_a_terminal_sentinel :
    (([completeLine .arxiv 10, completeLine .biorxiv 5, errorLine .pubmed "boom",
       completeLine .medrxiv 8].foldl applyScanLine scanStart).totalPapers = 23
  ∧ ([completeLine .arxiv 10, completeLine .biorxiv 5, errorLine .pubmed "boom",
      completeLine .medrxiv 8].foldl applyScanLine scanStart).isScanning = true)
  ∧ (∀ (p : ScanProgress) (hs hc : Bool) (d : ScanData), d.total_papers = none →
      (applyData p hs hc d).isScanning = p.isScanning)
  ∧ (applyScanLine
      ([completeLine .arxiv 10, completeLine .biorxiv 5, errorLine .pubmed "boom",
        completeLine .medrxiv 8].foldl applyScanLine scanStart)
      (sentinelLine 23 none)).isScanning = false := by
  refine ⟨⟨by decide, by decide⟩, applyData_isScanning, by decide⟩

theorem scenario_a_terminal_sentinel_witness :
    (applyData scanStart false false
      { message := none, source := none, papers_fetched := none
        sample_titles := none, error := none, total_papers := none }).isScanning
      = scanStart.isScanning :=
  scenario_a_terminal_sentinel.2.1 scanStart false false
    { message := none, source := none, papers_fetched := none
      sample_titles := none, error := none, total_papers := none } rfl

/-! ## Connection manager (the SSE useEffect, page.tsx 125-208)

The `connect` closure and the effect cleanup form a small transition system:
`onopen` sets the connectivity signal, `onerror` clears it, closes the source
and schedules `connect` again via `setTimeout(connect, 3000)`, and the
cleanup (view teardown) closes the source and clears any pending timer. -/

/-- State owned by the SSE useEffect: the connectivity signal, whether an
`EventSource` object is currently open, the delay of a pending reconnect
timer (if any), and whether the view has been torn down. -/
structure ConnState where
  connected : Bool
  sourceOpen : Bool
  reconnectDelay : Option Nat
  tornDown : Bool
deriving Repr, DecidableEq

/-- Events acting on the connection state: `onopen`, `onerror`, the reconnect
timer firing (which runs `connect`), and the effect cleanup. -/
inductive ConnEvent
  | opened
  | transportFailure
  | timerFired
  | teardown
deriving Repr, DecidableEq

/-- One transition of the connection manager (page.tsx lines 129-207). -/
def connStep (s : ConnState) : ConnEvent → ConnState
  | .opened => { s with connected := true }
  | .transportFailure =>
    { s with connected := false, sourceOpen := false, reconnectDelay := some 3000 }
  | .timerFired =>
    if s.tornDown then s
    else { s with sourceOpen := true, reconnectDelay := none }
  | .teardown => { s with sourceOpen := false, reconnectDelay := none, tornDown := true }

/-- One failure/recovery round: a transport failure followed by the scheduled
timer firing (which reconnects). -/
def reconnectCycle (s : ConnState) : ConnState :=
  connStep (connStep s .transportFailure) .timerFired

theorem reconnectCycle_of_not_tornDown (s : ConnState) (h : s.tornDown = false) :
    reconnectCycle s =
      { connected := false, sourceOpen := true, reconnectDelay := none
        tornDown := false } := by
  simp [reconnectCycle, connStep, h]

/-- C6: every transport failure of the queue channel clears the connectivity
signal and schedules a reconnect with a fixed 3000 ms delay; as long as the
view is not torn down, each failure/timer round reconnects again, for every
number of repetitions; teardown closes the connection and clears any pending
reconnect timer. -/
theorem reconnect_loop (s : ConnState) (h : s.tornDown = false) :
    (connStep s .transportFailure).connected = false
  ∧ (connStep s .transportFailure).reconnectDelay = some 3000
  ∧ (∀ n : Nat, (reconnectCycle^[n + 1] s).sourceOpen = true
      ∧ (reconnectCycle^[n + 1] s).tornDown = false)
  ∧ (connStep s .teardown).sourceOpen = false
  ∧ (connStep s .teardown).reconnectDelay = none := by
  refine ⟨rfl, rfl, ?_, rfl, rfl⟩
  intro n
  induction n with
  | zero =>
    rw [Function.iterate_one, reconnectCycle_of_not_tornDown s h]
    exact ⟨rfl, rfl⟩
  | succ n ih =>
    rw [Function.iterate_succ_apply', reconnectCycle_of_not_tornDown _ ih.2]
    exact ⟨rfl, rfl⟩

theorem reconnect_loop_witness :
    (connStep ⟨true, true, none, false⟩ .transportFailure).connected = false
  ∧ (connStep ⟨true, true, none, false⟩ .transportFailure).reconnectDelay = some 3000
  ∧ (∀ n : Nat, (reconnectCycle^[n + 1] ⟨true, true, none, false⟩).sourceOpen = true
      ∧ (reconnectCycle^[n + 1] ⟨true, true, none, false⟩).tornDown = false)
  ∧ (connStep ⟨true, true, none, false⟩ .teardown).sourceOpen = false
  ∧ (connStep ⟨true, true, none, false⟩ .teardown).reconnectDelay = none :=
  reconnect_loop ⟨true, true, none, false⟩ rfl

/-! ## Mutation dispatcher failure handling (page.tsx 211-475)

Each user-triggered mutation is one `useMutation` whose `onError` callback
(when present) appends a single failure entry built from a fixed text plus
the error value.  `clearQueue` (page.tsx lines 231-241) declares no
`onError` at all, so a failed clear-queue call runs only the react-query
default, which changes no client state and logs nothing. -/

/-- The user-triggered request/response mutations of the scan page. -/
inductive MutationKind
  | addAllToQueue
  | clearQueue
  | scanArxiv
  | scanBiorxiv
  | scanPubmed
  | researchFacility
  | fetchPaper
  | clearAssessments
deriving Repr, DecidableEq

/-- The fixed message text preceding the interpolated error in each
mutation's `onError` callback; `none` when the mutation declares no
`onError` (only `clearQueue`). -/
def onErrorText : MutationKind → Option String
  | .addAllToQueue => some "Failed to add papers to queue: "
  | .clearQueue => none
  | .scanArxiv => some "arXiv scan failed: "
  | .scanBiorxiv => some "bioRxiv scan failed: "
  | .scanPubmed => some "PubMed scan failed: "
  | .researchFacility => some "Facility research failed: "
  | .fetchPaper => some "Failed to fetch paper: "
  | .clearAssessments => some "Failed to clear assessments: "

/-- Effect of a mutation's failed request/response call on the client state:
the `onError` callback (if any) appends one failure entry via `addResult`;
nothing is re-fetched, invalidated or re-dispatched on the error path. -/
def mutationOnError (k : MutationKind) (st : ClientState) (error : String) :
    ClientState × QueueFx :=
  match onErrorText k with
  | none => (st, noFx)
  | some pre =>
    ({ st with results := st.results ++
        [{ success := false, message := pre ++ error, count := none }] },
     noFx)

/-- An empty client state, used as a concrete test fixture. -/
def emptyClientState : ClientState :=
  { queueStatus := none, recentItems := [], results := [], scanProgress := initialProgress }

/-- C8 counterexample: a failed clear-queue call appends no failure entry at
all (the mutation has no `onError` handler), so it is false that every failed
user-triggered mutation appends exactly one failure entry. -/
theorem clear_queue_failure_appends_nothing :
    (mutationOnError .clearQueue emptyClientState "boom").1 = emptyClientState
  ∧ ¬ ((mutationOnError .clearQueue emptyClientState "boom").1.results.length
        = emptyClientState.results.length + 1) := by
  exact ⟨rfl, by decide⟩

/-- C8 (amended): for every user-triggered mutation that declares a failure
handler — all of them except clear-queue — a failed call appends exactly one
failure entry whose text contains the error text, leaves all other client
state unchanged, and re-issues nothing (no retry, no re-fetch). -/
theorem mutation_failure_logging (k : MutationKind) (st : ClientState)
    (error : String) (hk : k ≠ .clearQueue) :
    ∃ pre, mutationOnError k st error
      = ({ st with results := st.results ++
            [{ success := false, message := pre ++ error, count := none }] },
         noFx) := by
  cases k with
  | clearQueue => exact absurd rfl hk
  | addAllToQueue => exact ⟨"Failed to add papers to queue: ", rfl⟩
  | scanArxiv => exact ⟨"arXiv scan failed: ", rfl⟩
  | scanBiorxiv => exact ⟨"bioRxiv scan failed: ", rfl⟩
  | scanPubmed => exact ⟨"PubMed scan failed: ", rfl⟩
  | researchFacility => exact ⟨"Facility research failed: ", rfl⟩
  | fetchPaper => exact ⟨"Failed to fetch paper: ", rfl⟩
  | clearAssessments => exact ⟨"Failed to clear assessments: ", rfl⟩

theorem mutation_failure_logging_witness :
    ∃ pre, mutationOnError .researchFacility emptyClientState "timeout"
      = ({ emptyClientState with results := emptyClientState.results ++
            [{ success := false, message := pre ++ "timeout", count := none }] },
         noFx) :=
  mutation_failure_logging .researchFacility emptyClientState "timeout" (by decide)

/-! ## Transport wrapper fetchApi (lib/api.ts 93-107)

`fetchApi` checks `res.ok`; on a non-success status it throws
`new Error("API error: " + res.status + " " + res.statusText)` — it never
reads the response body on the error path.  The response is modelled with
both the transport fields the code reads and the body's message text
(`bodyMessage`) that the spec refers to. -/

/-- An HTTP response as seen by `fetchApi`: transport status fields, the
parsed success body, and the message text carried in the response body. -/
structure HttpResponse (T : Type) where
  ok : Bool
  status : Nat
  statusText : String
  bodyMessage : String
  body : T
deriving Repr

/-- The `fetchApi` wrapper (api.ts lines 93-107): non-success status throws,
success returns the parsed body. -/
def fetchApi {T : Type} (res : HttpResponse T) : Except String T :=
  if res.ok then Except.ok res.body
  else Except.error ("API error: " ++ toString res.status ++ " " ++ res.statusText)

/-- A concrete failing response whose body message differs from the thrown
reason. -/
def errResponse : HttpResponse Unit :=
  { ok := false, status := 500, statusText := "Internal Server Error"
    bodyMessage := "disk full", body := () }

/-- C9 counterexample: on a non-success status `fetchApi` throws a reason
built from the numeric status and the transport status text, which is not the
message text of the response body. -/
theorem fetchApi_reason_not_body :
    fetchApi errResponse = Except.error "API error: 500 Internal Server Error"
  ∧ "API error: 500 Internal Server Error" ≠ errResponse.bodyMessage := by
  exact ⟨rfl, by decide⟩

/-- C9 (amended): every non-success status fails uniformly — `fetchApi`
throws, with a user-visible reason built only from the numeric status and the
transport status text; two failing responses agreeing on those two fields
produce the same failure regardless of their bodies. -/
theorem fetchApi_error_uniform {T : Type} (res res2 : HttpResponse T)
    (h : res.ok = false) (h2 : res2.ok = false)
    (hs : res.status = res2.status) (ht : res.statusText = res2.statusText) :
    fetchApi res
      = Except.error ("API error: " ++ toString res.status ++ " " ++ res.statusText)
  ∧ fetchApi res = fetchApi res2 := by
  constructor
  · simp [fetchApi, h]
  · simp [fetchApi, h, h2, hs, ht]

theorem fetchApi_error_uniform_witness :
    fetchApi errResponse
      = Except.error ("API error: " ++ toString errResponse.status ++ " "
          ++ errResponse.statusText)
  ∧ fetchApi errResponse = fetchApi (T := Unit)
      { ok := false, status := 500, statusText := "Internal Server Error"
        bodyMessage := "quota exceeded", body := () } :=
  fetchApi_error_uniform errResponse
    { ok := false, status := 500, statusText := "Internal Server Error"
      bodyMessage := "quota exceeded", body := () }
    rfl rfl rfl rfl

end Litmus
